import Mathlib

/-!
Verification of the date utility library in src/core-js-dates-tasks.js.

The embedding models a JavaScript Date as its time value: the number of
milliseconds since the Unix epoch, an integer (`Int`).  JavaScript number
division that the source applies to these values is floor division with a
positive divisor, which coincides with `Int` division (`Int.ediv`, the `/`
notation) used throughout.  The calendar-field getters and setters follow the
ECMAScript specification (YearFromTime, MonthFromTime, DateFromTime, MakeDay,
WeekDay, HourFromTime, and so on), implemented with the standard proleptic
Gregorian civil-from-days and days-from-civil conversions.  The runtime local
time zone is modelled as UTC, so local getters and setters coincide with the
UTC ones; the test environment of the repository runs with a UTC zone and the
specification relies on UTC fields for reproducibility.
-/

set_option maxHeartbeats 3200000
set_option maxRecDepth 8000

/-- Milliseconds in one day. -/
def msPerDay : Int := 86400000

/-- Day number of a time value: floor of the timestamp divided by the length
of a day, as in the ECMAScript Day(t) operation. -/
def epochDay (t : Int) : Int := t / msPerDay

/-- Milliseconds elapsed since the start of the current UTC day, as in the
ECMAScript TimeWithinDay(t) operation. -/
def timeWithinDay (t : Int) : Int := t % msPerDay

/-- Day count since 1970-01-01 of the proleptic Gregorian date (y, m, d) with
month m in 1..12, by the standard era decomposition. -/
def daysFromCivil (y m d : Int) : Int :=
  let yy := if m ≤ 2 then y - 1 else y
  let era := yy / 400
  let yoe := yy - era * 400
  let doy := (153 * (m + (if m > 2 then -3 else 9)) + 2) / 5 + d - 1
  let doe := yoe * 365 + yoe / 4 - yoe / 100 + doy
  era * 146097 + doe - 719468

/-- Proleptic Gregorian date (year, month in 1..12, day in 1..31) of a day
count since 1970-01-01, by the standard era decomposition. -/
def civilFromDays (z0 : Int) : Int × Int × Int :=
  let z := z0 + 719468
  let era := z / 146097
  let doe := z - era * 146097
  let yoe := (doe - doe / 1460 + doe / 36524 - doe / 146096) / 365
  let y := yoe + era * 400
  let doy := doe - (365 * yoe + yoe / 4 - yoe / 100)
  let mp := (5 * doy + 2) / 153
  let d := doy - (153 * mp + 2) / 5 + 1
  let m := if mp < 10 then mp + 3 else mp - 9
  (if m ≤ 2 then y + 1 else y, m, d)

/-- Date.prototype.getUTCFullYear of a time value. -/
def getUTCFullYear (t : Int) : Int := (civilFromDays (epochDay t)).1

/-- Date.prototype.getUTCMonth of a time value, zero-based as in JavaScript. -/
def getUTCMonth (t : Int) : Int := (civilFromDays (epochDay t)).2.1 - 1

/-- Date.prototype.getUTCDate (day of month, 1..31) of a time value. -/
def getUTCDate (t : Int) : Int := (civilFromDays (epochDay t)).2.2

/-- Date.prototype.getUTCDay: weekday index, 0 = Sunday .. 6 = Saturday, as in
the ECMAScript WeekDay(t) operation; 1970-01-01 was a Thursday (index 4). -/
def getUTCDay (t : Int) : Int := (epochDay t + 4) % 7

/-- Date.prototype.getUTCHours, as in the ECMAScript HourFromTime operation. -/
def getUTCHours (t : Int) : Int := t / 3600000 % 24

/-- Date.prototype.getMinutes; the local zone is modelled as UTC, so this is
MinFromTime. -/
def getMinutes (t : Int) : Int := t / 60000 % 60

/-- Date.prototype.getSeconds; the local zone is modelled as UTC, so this is
SecFromTime. -/
def getSeconds (t : Int) : Int := t / 1000 % 60

/-- Date.prototype.getFullYear; the local zone is modelled as UTC. -/
def getFullYear (t : Int) : Int := getUTCFullYear t

/-- Date.prototype.getMonth, zero-based; the local zone is modelled as UTC. -/
def getMonth (t : Int) : Int := getUTCMonth t

/-- Date.prototype.getDate (day of month); the local zone is modelled as UTC. -/
def getDate (t : Int) : Int := getUTCDate t

/-- ECMAScript MakeDay(year, month, date): month is zero-based and may be out
of range (it rolls into the year), date may be out of range (it rolls into
the month). -/
def makeDay (y m date : Int) : Int :=
  daysFromCivil (y + m / 12) (m % 12 + 1) 1 + (date - 1)

/-- ECMAScript two-digit-year rule used by the Date constructor and Date.UTC:
a year from 0 to 99 is interpreted as 1900 + year. -/
def twoDigitYearFix (y : Int) : Int := if 0 ≤ y ∧ y ≤ 99 then y + 1900 else y

/-- Date.UTC(year, month, day) with month zero-based, at midnight UTC: the
form the source always uses. -/
def dateUTC (y m d : Int) : Int := makeDay (twoDigitYearFix y) m d * msPerDay

/-- Time value produced by the local Date constructor new Date(year, month,
day); the local zone is modelled as UTC, so it equals Date.UTC with the same
two-digit-year rule. -/
def mkLocalDate (y m d : Int) : Int := makeDay (twoDigitYearFix y) m d * msPerDay

/-- Date.prototype.setUTCMonth(m): keeps the UTC day of month and the time of
day, normalizing overflow as MakeDay does. -/
def setUTCMonth (t m : Int) : Int :=
  makeDay (getUTCFullYear t) m (getUTCDate t) * msPerDay + timeWithinDay t

/-- Date.prototype.setUTCDate(d): keeps the UTC year, month and time of day,
normalizing an out-of-range day into adjacent months as MakeDay does. -/
def setUTCDate (t d : Int) : Int :=
  makeDay (getUTCFullYear t) (getUTCMonth t) d * msPerDay + timeWithinDay t

/-- Value of Date.parse applied to a Date object, as the source does in
getNextFriday: the date is coerced to its default string form, which carries
no milliseconds field, so parsing it back yields the time value floored to a
whole second. -/
def jsDateParseOfDate (t : Int) : Int := 1000 * (t / 1000)

/-- Embedding of getNextFriday (src lines 80-94).  The source re-parses the
input date via Date.parse in every branch, adds a number of whole days that
depends on the weekday of the original input, and wraps the sum in a new
Date; the original input object is read only through getUTCDay, never
mutated.  The final else branch of the source (returning the input unchanged)
is unreachable because the previous condition covers every remaining case. -/
def getNextFriday (t : Int) : Int :=
  if getUTCDay t > 5 then
    jsDateParseOfDate t + getUTCDay t * (24 * 60 * 60 * 1000)
  else if getUTCDay t = 5 then
    jsDateParseOfDate t + 7 * (24 * 60 * 60 * 1000)
  else if getUTCDay t ≤ 5 then
    jsDateParseOfDate t + (5 - getUTCDay t) * (24 * 60 * 60 * 1000)
  else t

/-- Embedding of isLeapYear (src lines 361-364): the source calls
date.setUTCMonth(2), which sets the month to index 2, meaning March, and then
tests whether getUTCDate() equals 29. -/
def isLeapYear (t : Int) : Bool := getUTCDate (setUTCMonth t 2) == 29

/-- Value held by the caller-supplied date after isLeapYear returns: the
source mutates its argument in place with setUTCMonth(2). -/
def isLeapYear_inputAfter (t : Int) : Int := setUTCMonth t 2

/-- Embedding of the inner findNextFriday recursion of getNextFridayThe13th
(src lines 265-271): starting from the given date, test whether the UTC
weekday is Friday (5) and the UTC day of month is 13, and otherwise advance
one day with setUTCDate(getUTCDate() + 1) and recurse.  The source recursion
is unbounded; the embedding carries an explicit fuel and returns none when it
is exhausted. -/
def findNextFriday : Nat → Int → Option Int
  | 0, _ => none
  | fuel + 1, t =>
    if getUTCDay t = 5 ∧ getUTCDate t = 13 then some t
    else findNextFriday fuel (setUTCDate t (getUTCDate t + 1))

/-- Embedding of getNextFridayThe13th (src lines 264-274): run the
findNextFriday search and return new Date(result.setDate(13)); setDate is the
local setter, which coincides with setUTCDate under the UTC zone model. -/
def getNextFridayThe13th (fuel : Nat) (t : Int) : Option Int :=
  (findNextFriday fuel t).map (fun r => setUTCDate r 13)

/-- Value held by the caller-supplied date after getNextFridayThe13th
returns.  The inner recursion mutates the argument itself (currentDate
aliases the parameter and setUTCDate is applied to it on every step), and the
final result.setDate(13) mutates the same object once more, so after the call
the input holds exactly the value the function returns. -/
def getNextFridayThe13th_inputAfter (fuel : Nat) (t : Int) : Option Int :=
  (findNextFriday fuel t).map (fun r => setUTCDate r 13)

/-- Embedding of getWeekNumberByDate (src lines 231-251).  Note the source
computes the week-one Monday by setUTCDate(firstThursday.getUTCDay() - 3):
getUTCDay of a Thursday is 4, so the day of month is set to 1 and the anchor
is always January 1 of the year.  Math.floor of the division is Int floor
division because the divisor is positive. -/
def getWeekNumberByDate (t : Int) : Int :=
  let myDate := dateUTC (getFullYear t) (getMonth t) (getDate t)
  let currentYear := getFullYear myDate
  let firstDayOfYear := dateUTC currentYear 0 1
  let dayOfFirstThursdayOfYear :=
    if getUTCDay firstDayOfYear ≤ 4 then
      dateUTC currentYear 0 (1 + (4 - getUTCDay firstDayOfYear))
    else
      dateUTC currentYear 0 (1 + (7 - getUTCDay firstDayOfYear + 4))
  let firstMondayOfYear :=
    setUTCDate dayOfFirstThursdayOfYear (getUTCDay dayOfFirstThursdayOfYear - 3)
  (myDate - firstMondayOfYear) / (7 * 24 * 60 * 60 * 1000) + 1

/-- Algorithm of section 4.5 of the specification, stated in its own words:
locate the first Thursday of the year (from January 1, advance 4 - index
days when the weekday index of January 1 is at most 4, else 7 - index + 4
days), back up 3 days from that Thursday to obtain the Monday of week one,
then return floor((date - week1Monday) / 7 days) + 1. -/
def getWeekNumberByDate_specAlgorithm (t : Int) : Int :=
  let myDate := dateUTC (getFullYear t) (getMonth t) (getDate t)
  let currentYear := getFullYear myDate
  let firstDayOfYear := dateUTC currentYear 0 1
  let idx := getUTCDay firstDayOfYear
  let firstThursday :=
    if idx ≤ 4 then firstDayOfYear + (4 - idx) * msPerDay
    else firstDayOfYear + (7 - idx + 4) * msPerDay
  let week1Monday := firstThursday - 3 * msPerDay
  (myDate - week1Monday) / (7 * msPerDay) + 1

/-- Month/day/year part of formatDate (src line 177), read from UTC fields. -/
def formatDate_dayOfDate (t : Int) : String :=
  toString (getUTCMonth t + 1) ++ "/" ++ toString (getUTCDate t) ++ "/" ++
    toString (getUTCFullYear t)

/-- Hour field of formatDate (src lines 181-182): hour > 12 displays hour
minus 12, hour 0 is overridden to the string 12, and hour 12 falls through
unchanged. -/
def formatDate_hour12 (t : Int) : String :=
  if getUTCHours t = 0 then "12"
  else toString (if getUTCHours t > 12 then getUTCHours t - 12 else getUTCHours t)

/-- Minute and second fields of formatDate (src lines 183-184), zero padded,
read through the local getters (modelled as UTC). -/
def formatDate_minSec (t : Int) : String :=
  (if getMinutes t < 10 then ":0" else ":") ++ toString (getMinutes t) ++
    ((if getSeconds t < 10 then ":0" else ":") ++ toString (getSeconds t))

/-- AM/PM suffix of formatDate (src line 185): PM exactly when the UTC hour
is at least 12. -/
def formatDate_suffix (t : Int) : String :=
  if getUTCHours t ≥ 12 then " PM" else " AM"

/-- Embedding of formatDate (src lines 175-187) on the parsed time value of
its ISO string argument: the day part, a comma, then the incrementally built
hour, minute, second and suffix string. -/
def formatDate (t : Int) : String :=
  formatDate_dayOfDate t ++ ", " ++
    (formatDate_hour12 t ++ formatDate_minSec t ++ formatDate_suffix t)

/-- Embedding of getCountDaysOnPeriod (src lines 130-134) on the parsed time
values of its two string arguments.  The source divides with the exact
JavaScript number division, so the result is modelled as a rational. -/
def getCountDaysOnPeriod (dateStart dateEnd : Int) : Rat :=
  ((dateEnd : Rat) - (dateStart : Rat)) / (60 * 60 * 24 * 1000) + 1

/-- Zero padding used by getWorkSchedule (src lines 332-339): numbers below
10 get a leading zero, via string concatenation. -/
def pad2 (n : Int) : String := if n < 10 then "0" ++ toString n else toString n

/-- Schedule entry format of getWorkSchedule (src line 341): padded day,
padded one-based month, and year, read through the local getters (modelled
as UTC), joined with dashes. -/
def formatDDMMYYYY (t : Int) : String :=
  pad2 (getDate t) ++ "-" ++ pad2 (getMonth t + 1) ++ "-" ++ toString (getFullYear t)

/-- Period argument of getWorkSchedule after the source splits each bound on
dashes and coerces the three parts to numbers (src lines 324-326): day,
month and year of the start and end bounds of the DD-MM-YYYY strings. -/
structure SchedulePeriod where
  startDay : Int
  startMonth : Int
  startYear : Int
  endDay : Int
  endMonth : Int
  endYear : Int

/-- Inner for loop of getWorkSchedule (src lines 330-343): countWorkDays
iterations, each advancing the cursor one day with
setUTCDate(getUTCDate() + 1), formatting the new cursor, and pushing the
string when the cursor is still strictly before dataEnd.  Returns the final
cursor and the pushed strings in order. -/
def workInner : Nat → Int → Int → Int × List String
  | 0, cursor, _ => (cursor, [])
  | n + 1, cursor, dataEnd =>
    let cursor2 := setUTCDate cursor (getUTCDate cursor + 1)
    let s := formatDDMMYYYY cursor2
    let rest := workInner n cursor2 dataEnd
    (rest.1, if cursor2 < dataEnd then s :: rest.2 else rest.2)

/-- Outer while loop of getWorkSchedule (src lines 329-345): while the cursor
is strictly before dataEnd, run the inner work loop and then skip
countOffDays days with setUTCDate(getUTCDate() + countOffDays).  The source
loop is unbounded when both counts are zero; the embedding carries an
explicit fuel bounding the number of outer iterations. -/
def workOuter : Nat → Int → Int → Nat → Int → List String
  | 0, _, _, _, _ => []
  | fuel + 1, cursor, dataEnd, countWorkDays, countOffDays =>
    if cursor < dataEnd then
      let inner := workInner countWorkDays cursor dataEnd
      inner.2 ++
        workOuter fuel (setUTCDate inner.1 (getUTCDate inner.1 + countOffDays))
          dataEnd countWorkDays countOffDays
    else []

/-- Embedding of getWorkSchedule (src lines 323-347): dataStart is the local
date of the parsed start bound, dataEnd the local date one day past the
parsed end bound, the cursor starts one day before dataStart, and the outer
loop runs from there. -/
def getWorkSchedule (fuel : Nat) (p : SchedulePeriod) (countWorkDays : Nat)
    (countOffDays : Int) : List String :=
  let dataStart := mkLocalDate p.startYear (p.startMonth - 1) p.startDay
  let dataEnd := mkLocalDate p.endYear (p.endMonth - 1) (p.endDay + 1)
  workOuter fuel (setUTCDate dataStart (getUTCDate dataStart - 1)) dataEnd
    countWorkDays countOffDays

/-- Work phase of the schedule algorithm as section 4.6 of the specification
words it: advance one day at a time for the given number of iterations,
emitting each date that falls strictly before the excluded end. -/
def specWork : Nat → Int → Int → Int × List String
  | 0, cursor, _ => (cursor, [])
  | n + 1, cursor, endExcl =>
    let cursor2 := cursor + msPerDay
    let rest := specWork n cursor2 endExcl
    (rest.1, if cursor2 < endExcl then formatDDMMYYYY cursor2 :: rest.2 else rest.2)

/-- Cycle of the schedule algorithm as the specification words it: repeat the
work phase and then skip the off days, until the cursor reaches or passes the
excluded end. -/
def specScheduleCycle : Nat → Int → Int → Nat → Int → List String
  | 0, _, _, _, _ => []
  | fuel + 1, cursor, endExcl, workDays, offDays =>
    if cursor < endExcl then
      let w := specWork workDays cursor endExcl
      w.2 ++ specScheduleCycle fuel (w.1 + offDays * msPerDay) endExcl workDays offDays
    else []

/-- Schedule algorithm as the specification words it: start the day before
the start of the period, and cycle work and off phases until the cursor
reaches or passes the end plus one day. -/
def getWorkSchedule_specModel (fuel : Nat) (p : SchedulePeriod) (workDays : Nat)
    (offDays : Int) : List String :=
  let startDate := mkLocalDate p.startYear (p.startMonth - 1) p.startDay
  let endExcl := mkLocalDate p.endYear (p.endMonth - 1) p.endDay + msPerDay
  specScheduleCycle fuel (startDate - msPerDay) endExcl workDays offDays

/-- Value held by the caller-supplied date after getTime returns: the source
(src lines 34-42) reads its argument only through getHours, getMinutes and
getSeconds and never calls a setter on it, so the argument is unchanged. -/
def getTime_inputAfter (t : Int) : Int := t

/-- Value held by the caller-supplied date after getNextFriday returns: the
source (src lines 80-94) reads its argument only through getUTCDay and
Date.parse and builds its result as a fresh Date, so the argument is
unchanged. -/
def getNextFriday_inputAfter (t : Int) : Int := t

/-- Value held by the caller-supplied date after getWeekNumberByDate returns:
the source (src lines 231-251) reads its argument only through getFullYear,
getMonth and getDate; the one setUTCDate call is applied to a locally
constructed copy, so the argument is unchanged. -/
def getWeekNumberByDate_inputAfter (t : Int) : Int := t

/-- Value held by the caller-supplied date after getQuarter returns: the
source (src lines 287-304) reads its argument only through getFullYear,
getMonth and getDate and never calls a setter on it, so the argument is
unchanged. -/
def getQuarter_inputAfter (t : Int) : Int := t

/-- Year-of-era extraction step of civilFromDays: over one 400-year era the
quotient formula recovers a year of era in 0..399 whose day of year lies in
0..365. -/
theorem yoe_stage (doe : Int) (h0 : 0 ≤ doe) (h1 : doe ≤ 146096) :
    0 ≤ (doe - doe / 1460 + doe / 36524 - doe / 146096) / 365 ∧
    (doe - doe / 1460 + doe / 36524 - doe / 146096) / 365 ≤ 399 ∧
    0 ≤ doe - (365 * ((doe - doe / 1460 + doe / 36524 - doe / 146096) / 365) +
          ((doe - doe / 1460 + doe / 36524 - doe / 146096) / 365) / 4 -
          ((doe - doe / 1460 + doe / 36524 - doe / 146096) / 365) / 100) ∧
    doe - (365 * ((doe - doe / 1460 + doe / 36524 - doe / 146096) / 365) +
          ((doe - doe / 1460 + doe / 36524 - doe / 146096) / 365) / 4 -
          ((doe - doe / 1460 + doe / 36524 - doe / 146096) / 365) / 100) ≤ 365 := by
  have h4 : (doe - doe / 1460 + doe / 36524 - doe / 146096) / 365 / 4
      = (doe - doe / 1460 + doe / 36524 - doe / 146096) / 1460 := by omega
  have h100 : (doe - doe / 1460 + doe / 36524 - doe / 146096) / 365 / 100
      = (doe - doe / 1460 + doe / 36524 - doe / 146096) / 36500 := by omega
  rw [h4, h100]
  clear h4 h100
  rcases lt_or_le doe 1460 with h | h
  · omega
  rcases lt_or_le doe 36524 with h2 | h2
  · omega
  rcases lt_or_le doe 146096 with h3 | h3
  · omega
  · have he : doe = 146096 := by omega
    subst he
    decide

/-- The civil conversions are inverse: converting a day number to a calendar
date and back yields the same day number, for every integer day number. -/
theorem civil_roundtrip (z : Int) :
    daysFromCivil (civilFromDays z).1 (civilFromDays z).2.1 (civilFromDays z).2.2 = z := by
  simp only [civilFromDays]
  generalize hera : (z + 719468) / 146097 = era
  generalize hdoe : z + 719468 - era * 146097 = doe
  generalize hyoe : (doe - doe / 1460 + doe / 36524 - doe / 146096) / 365 = yoe
  generalize hdoy : doe - (365 * yoe + yoe / 4 - yoe / 100) = doy
  generalize hmp : (5 * doy + 2) / 153 = mp
  have hdb : 0 ≤ doe ∧ doe ≤ 146096 := by omega
  have hys := yoe_stage doe hdb.1 hdb.2
  rw [hyoe] at hys
  rw [hdoy] at hys
  have hmpb : 0 ≤ mp ∧ mp ≤ 11 := by omega
  have hz : era * 146097 + doe - 719468 = z := by omega
  clear hera hdoe hyoe hmp hdb
  simp only [daysFromCivil]
  split_ifs <;> omega

/-- The month component of civilFromDays lies in 1..12. -/
theorem civil_month_bounds (z : Int) :
    1 ≤ (civilFromDays z).2.1 ∧ (civilFromDays z).2.1 ≤ 12 := by
  simp only [civilFromDays]
  generalize hera : (z + 719468) / 146097 = era
  generalize hdoe : z + 719468 - era * 146097 = doe
  generalize hyoe : (doe - doe / 1460 + doe / 36524 - doe / 146096) / 365 = yoe
  generalize hdoy : doe - (365 * yoe + yoe / 4 - yoe / 100) = doy
  generalize hmp : (5 * doy + 2) / 153 = mp
  have hdb : 0 ≤ doe ∧ doe ≤ 146096 := by omega
  have hys := yoe_stage doe hdb.1 hdb.2
  rw [hyoe] at hys
  rw [hdoy] at hys
  have hmpb : 0 ≤ mp ∧ mp ≤ 11 := by omega
  split_ifs <;> omega

/-- daysFromCivil is linear in its day argument. -/
theorem daysFromCivil_date_shift (y m d : Int) :
    daysFromCivil y m d = daysFromCivil y m 1 + (d - 1) := by
  simp only [daysFromCivil]
  split_ifs <;> omega

/-- MakeDay applied to the civil fields of a time value recovers its day
number. -/
theorem makeDay_epochDay (t : Int) :
    makeDay (getUTCFullYear t) (getUTCMonth t) (getUTCDate t) = epochDay t := by
  have h1 := civil_roundtrip (epochDay t)
  have h2 := civil_month_bounds (epochDay t)
  have e1 : ((civilFromDays (epochDay t)).2.1 - 1) / 12 = 0 := by omega
  have e2 : ((civilFromDays (epochDay t)).2.1 - 1) % 12
      = (civilFromDays (epochDay t)).2.1 - 1 := by omega
  rw [daysFromCivil_date_shift] at h1
  simp only [makeDay, getUTCFullYear, getUTCMonth, getUTCDate, e1, e2,
    add_zero, sub_add_cancel]
  omega

/-- setUTCDate with the current day of month shifted by k moves the time
value by exactly k whole days. -/
theorem setUTCDate_add (t k : Int) :
    setUTCDate t (getUTCDate t + k) = t + k * msPerDay := by
  have h1 := makeDay_epochDay t
  have h2 : msPerDay * (t / msPerDay) + t % msPerDay = t := Int.ediv_add_emod t msPerDay
  simp only [setUTCDate, makeDay, timeWithinDay, epochDay, msPerDay] at *
  omega

/-- setUTCDate with the current day of month leaves the time value
unchanged. -/
theorem setUTCDate_self (t : Int) : setUTCDate t (getUTCDate t) = t := by
  have h := setUTCDate_add t 0
  simpa using h

/-- Weekday indices lie in 0..6. -/
theorem getUTCDay_bounds (t : Int) : 0 ≤ getUTCDay t ∧ getUTCDay t < 7 := by
  simp only [getUTCDay, epochDay, msPerDay]
  omega

/-- C1: the claim states that isLeapYear returns true for every date whose
year is 2024 or 2020 and false for every date whose year is 2022 or 2023, by
setting the month to February and probing day 29.  The code instead calls
setUTCMonth(2), which selects March (months are zero-based), so the result is
simply whether the day of month is 29.  This theorem evaluates the embedded
code at the first documented example of the source, Date(2024, 2, 1), which
the documentation says maps to true but the code maps to false, and at
2023-05-29, which the claim says maps to false but the code maps to true. -/
theorem claim_C1 :
    isLeapYear (dateUTC 2024 2 1) = false ∧ isLeapYear (dateUTC 2023 4 29) = true := by
  decide

/-- C2: the claim states that getWeekNumberByDate backs up 3 days from the
first Thursday of the year to obtain the Monday of week one.  The code
instead calls setUTCDate(firstThursday.getUTCDay() - 3): the weekday index
of a Thursday is 4, so the day of month is set to 1 and the anchor is always
January 1.  At 2023-01-08 (a Sunday, in ISO week 1 of 2023) the code returns
2 while the algorithm of the specification returns 1. -/
theorem claim_C2 :
    getWeekNumberByDate (dateUTC 2023 0 8) = 2 ∧
    getWeekNumberByDate_specAlgorithm (dateUTC 2023 0 8) = 1 := by
  decide

/-- C5: getWeekNumberByDate returns 1 for 2024-01-03, 5 for 2024-01-31 and 8
for 2024-02-23, as the claim states (January 1 of 2024 is a Monday, so the
accidental January-1 anchor of the code agrees with the ISO week-one Monday
throughout 2024). -/
theorem claim_C5 :
    getWeekNumberByDate (dateUTC 2024 0 3) = 1 ∧
    getWeekNumberByDate (dateUTC 2024 0 31) = 5 ∧
    getWeekNumberByDate (dateUTC 2024 1 23) = 8 := by
  decide

/-- C7: for every time value whose UTC hour is 0 (midnight) or 12 (noon),
formatDate renders the hour field as the string 12, never 0, and the suffix
is AM at midnight and PM at noon. -/
theorem claim_C7 (t : Int) (h : getUTCHours t = 0 ∨ getUTCHours t = 12) :
    formatDate t = formatDate_dayOfDate t ++ ", " ++
      ("12" ++ formatDate_minSec t ++
        (if getUTCHours t = 12 then " PM" else " AM")) := by
  rcases h with h | h
  · simp [formatDate, formatDate_hour12, formatDate_suffix, h]
  · have e : toString (12 : Int) = "12" := by decide
    simp [formatDate, formatDate_hour12, formatDate_suffix, h, e]

/-- Witness for C7 at noon of 1970-01-01 (time value 43200000). -/
theorem claim_C7_witness :
    formatDate 43200000 = formatDate_dayOfDate 43200000 ++ ", " ++
      ("12" ++ formatDate_minSec 43200000 ++
        (if getUTCHours 43200000 = 12 then " PM" else " AM")) :=
  claim_C7 43200000 (Or.inr (by decide))

/-- C8: for every pair of parsed date strings whose time values differ by an
exact whole number of days d (d may be negative, nothing validates the
order), getCountDaysOnPeriod returns d + 1. -/
theorem claim_C8 (dateStart dateEnd d : Int)
    (h : dateEnd - dateStart = d * 86400000) :
    getCountDaysOnPeriod dateStart dateEnd = (d : Rat) + 1 := by
  have h2 : (dateEnd : Rat) - (dateStart : Rat) = (d : Rat) * 86400000 := by
    exact_mod_cast h
  simp only [getCountDaysOnPeriod, h2]
  rw [show ((60 : Rat) * 60 * 24 * 1000) = 86400000 from by norm_num]
  rw [mul_div_assoc]
  norm_num

/-- Witness for C8 at the documented example: the parsed values of 2024-02-01
and 2024-02-02 differ by one day and the inclusive count is 2. -/
theorem claim_C8_witness :
    getCountDaysOnPeriod (dateUTC 2024 1 1) (dateUTC 2024 1 2) = 2 := by
  have h := claim_C8 (dateUTC 2024 1 1) (dateUTC 2024 1 2) 1 (by decide)
  rw [h]
  norm_num

/-- Counterexample for C4 as originally stated: a Saturday input carrying 500
milliseconds within its second (time value 172800500, half a second past
midnight of Saturday 1970-01-03) does not advance by exactly 6 days, because
the source re-parses the date through its string form and loses the
millisecond part. -/
theorem claim_C4_counterexample :
    getUTCDay 172800500 = 6 ∧ getNextFriday 172800500 - 172800500 ≠ 6 * msPerDay := by
  decide

/-- C4 (amended): for every input date whose time value is a whole second —
Date.parse of the stringified date drops milliseconds, so on such inputs the
re-parse is the identity — getNextFriday advances by an amount determined
solely by the UTC weekday index: 6 days from a Saturday, 7 days from a
Friday, and 5 - index days otherwise. -/
theorem claim_C4 (t : Int) (hsec : t % 1000 = 0) :
    getNextFriday t = t +
      (if getUTCDay t = 6 then 6
       else if getUTCDay t = 5 then 7
       else 5 - getUTCDay t) * msPerDay := by
  have hb := getUTCDay_bounds t
  simp only [getNextFriday, jsDateParseOfDate, getUTCDay, epochDay, msPerDay] at *
  split_ifs <;> omega

/-- Witness for C4 at midnight of Saturday 1970-01-03: the result is 6 days
later. -/
theorem claim_C4_witness :
    getNextFriday (2 * 86400000) = 2 * 86400000 + 6 * 86400000 := by
  have h := claim_C4 (2 * 86400000) (by decide)
  rw [h]
  decide

/-- Counterexample for C9 as originally stated: at time value 500 (half a
second past midnight of Thursday 1970-01-01) the result of getNextFriday is
less than one full day after the input, because the re-parse drops the
milliseconds before adding one day. -/
theorem claim_C9_counterexample :
    ¬ (getUTCDay (getNextFriday 500) = 5 ∧ 500 < getNextFriday 500 ∧
       msPerDay ≤ getNextFriday 500 - 500 ∧ getNextFriday 500 - 500 ≤ 7 * msPerDay) := by
  decide

/-- C9 (amended): for every input date, getNextFriday returns a date whose
UTC weekday is Friday, strictly after the input and at most 7 days later;
the advance is at least one full day whenever the input time value is a
whole second (the re-parse through the string form drops milliseconds, so
sub-second inputs can fall short of a full day). -/
theorem claim_C9 (t : Int) :
    getUTCDay (getNextFriday t) = 5 ∧ t < getNextFriday t ∧
    getNextFriday t - t ≤ 7 * msPerDay ∧
    (t % 1000 = 0 → msPerDay ≤ getNextFriday t - t) := by
  have hb := getUTCDay_bounds t
  simp only [getNextFriday, jsDateParseOfDate, getUTCDay, epochDay, msPerDay] at *
  split_ifs <;> omega

/-- Witness for C9 at time value 0 (Thursday 1970-01-01 midnight): the result
is a Friday at least one day later. -/
theorem claim_C9_witness :
    getUTCDay (getNextFriday 0) = 5 ∧ msPerDay ≤ getNextFriday 0 - 0 := by
  have h := claim_C9 0
  exact ⟨h.1, h.2.2.2 (by decide)⟩

/-- C10: when the input date is already a Friday the 13th, the search returns
immediately and the final setDate(13) leaves the value unchanged, so
getNextFridayThe13th returns a date equal to the input: the search is
inclusive of its starting date. -/
theorem claim_C10 (fuel : Nat) (t : Int) (h5 : getUTCDay t = 5)
    (h13 : getUTCDate t = 13) :
    getNextFridayThe13th (fuel + 1) t = some t := by
  have hself : setUTCDate t 13 = t := by
    have h := setUTCDate_self t
    rw [h13] at h
    exact h
  unfold getNextFridayThe13th findNextFriday
  rw [if_pos (And.intro h5 h13)]
  simp [hself]

/-- Witness for C10 at Friday 2024-09-13. -/
theorem claim_C10_witness :
    getNextFridayThe13th 1 (dateUTC 2024 8 13) = some (dateUTC 2024 8 13) :=
  claim_C10 0 (dateUTC 2024 8 13) (by decide) (by decide)

/-- Counterexample for C3 as originally stated: getNextFridayThe13th also
mutates its caller-supplied argument.  Starting it at 2024-01-01 leaves the
input holding 2024-09-13 (the found Friday the 13th), not its original
value. -/
theorem claim_C3_counterexample :
    getNextFridayThe13th_inputAfter 300 (dateUTC 2024 0 1) = some (dateUTC 2024 8 13) ∧
    dateUTC 2024 8 13 ≠ dateUTC 2024 0 1 :=
  ⟨by decide, by decide⟩

/-- C3 (amended): isLeapYear and getNextFridayThe13th are the only exported
functions that mutate a caller-supplied date; every other exported function
that receives a date (getTime, getNextFriday, getWeekNumberByDate,
getQuarter) reads it only through getters and leaves it unchanged, while the
two mutators change the value of a concrete input. -/
theorem claim_C3 :
    (∀ t : Int, getTime_inputAfter t = t) ∧
    (∀ t : Int, getNextFriday_inputAfter t = t) ∧
    (∀ t : Int, getWeekNumberByDate_inputAfter t = t) ∧
    (∀ t : Int, getQuarter_inputAfter t = t) ∧
    isLeapYear_inputAfter (dateUTC 2024 0 1) ≠ dateUTC 2024 0 1 ∧
    getNextFridayThe13th_inputAfter 300 (dateUTC 2024 0 1) ≠ some (dateUTC 2024 0 1) :=
  ⟨fun _ => rfl, fun _ => rfl, fun _ => rfl, fun _ => rfl, by decide, by decide⟩

/-- Advancing the day of month by one day at a time through setUTCDate is the
same as stepping the time value by msPerDay: the inner work loop of the code
equals the work phase of the specification. -/
theorem workInner_eq_specWork (n : Nat) (cursor dataEnd : Int) :
    workInner n cursor dataEnd = specWork n cursor dataEnd := by
  induction n generalizing cursor with
  | zero => rfl
  | succ k ih => simp only [workInner, specWork, setUTCDate_add, one_mul, ih]

/-- The outer schedule loop of the code equals the cycle of the
specification: the off-day skip through setUTCDate is a whole-day step. -/
theorem workOuter_eq_specScheduleCycle (fuel : Nat) (cursor dataEnd : Int)
    (wd : Nat) (od : Int) :
    workOuter fuel cursor dataEnd wd od = specScheduleCycle fuel cursor dataEnd wd od := by
  induction fuel generalizing cursor with
  | zero => rfl
  | succ k ih =>
    simp only [workOuter, specScheduleCycle, workInner_eq_specWork, setUTCDate_add, ih]

/-- Stepping back one day through setUTCDate subtracts one day from the time
value. -/
theorem setUTCDate_sub_one (t : Int) : setUTCDate t (getUTCDate t - 1) = t - msPerDay := by
  have h := setUTCDate_add t (-1)
  have e : getUTCDate t + (-1) = getUTCDate t - 1 := by ring
  rw [e] at h
  rw [h]
  ring

/-- The local date of day d + 1 is one day past the local date of day d. -/
theorem mkLocalDate_succ (y m d : Int) :
    mkLocalDate y m (d + 1) = mkLocalDate y m d + msPerDay := by
  simp only [mkLocalDate, makeDay]
  ring

/-- The embedded getWorkSchedule coincides with the schedule algorithm as the
specification words it, for every fuel, period and day counts. -/
theorem getWorkSchedule_eq_specModel (fuel : Nat) (p : SchedulePeriod)
    (workDays : Nat) (offDays : Int) :
    getWorkSchedule fuel p workDays offDays
      = getWorkSchedule_specModel fuel p workDays offDays := by
  simp only [getWorkSchedule, getWorkSchedule_specModel,
    workOuter_eq_specScheduleCycle, setUTCDate_sub_one, mkLocalDate_succ]

/-- C6: on the documented example the schedule for the period 01-01-2024 to
15-01-2024 with one work day and three off days is exactly the four listed
dates, and in general the embedded code produces the list described by the
specification: start the day before the start of the period, advance one day
at a time for the work-day count emitting each date strictly before the end
plus one day, skip the off days, and repeat until the cursor reaches or
passes the end plus one day. -/
theorem claim_C6 :
    getWorkSchedule 10 ⟨1, 1, 2024, 15, 1, 2024⟩ 1 3
      = ["01-01-2024", "05-01-2024", "09-01-2024", "13-01-2024"] ∧
    ∀ (fuel : Nat) (p : SchedulePeriod) (workDays : Nat) (offDays : Int),
      getWorkSchedule fuel p workDays offDays
        = getWorkSchedule_specModel fuel p workDays offDays :=
  ⟨by decide, getWorkSchedule_eq_specModel⟩
